import Mathlib

/-!
Shallow embedding of the Assinador repository (src/Assinador/app.py,
src/Assinador/auth.py) used to check the specification's claims.

Conventions:
* file contents are byte lists (`Bytes`); the SHA-256 primitive from
  Python's `hashlib` is an external collaborator and is modelled as an
  abstract parameter `H : Bytes → String` (the hex digest of the
  concatenation of all bytes fed to the hasher);
* Python floats are modelled as rationals, `int()` as truncation toward
  zero, Python ints as `Int`;
* the on-disk store of signed documents is a list of `StoredFile`
  (filename plus content), `none` standing for a missing directory
  (`FileNotFoundError`).
-/

namespace Assinador

abbrev Bytes := List Nat

/-- Embeds `sha256_of_file`'s read loop (app.py lines 69-74): the file is
read in chunks of 8192 bytes until an empty read. -/
def readChunks : Bytes → List Bytes
  | [] => []
  | b :: rest => ((b :: rest).take 8192) :: readChunks ((b :: rest).drop 8192)
  termination_by l => l.length
  decreasing_by simp [List.length_drop]; omega

/-- One stored file of the signed-document directory: its filename and its
byte content. -/
structure StoredFile where
  path : String
  content : Bytes
deriving DecidableEq

/-- Embeds `sha256_of_file` (app.py lines 69-74): the hasher is updated
with each 8192-byte chunk, so the digest is `H` of the concatenation of
the chunks. -/
def sha256_of_file (H : Bytes → String) (f : StoredFile) : String :=
  H (readChunks f.content).flatten

/-- Embeds the page clamp of `assinar` (app.py lines 380-384): a first
branch lifts a page number below 1 to 1, a second lowers a page number
above `total` to `total`. -/
def clampPage (pageNum total : Int) : Int :=
  let p := if pageNum < 1 then 1 else pageNum
  if p > total then total else p

/-- Embeds the stamp scale factor of `assinar` (app.py lines 405-411):
`s_w = ponto_w / 190.0`, `s_h = ponto_h / 180.0`,
`s = max(0.6, min(4.0, min(s_w, s_h)))`. -/
def scaleS (ponto_w ponto_h : Int) : ℚ :=
  let s_w : ℚ := (ponto_w : ℚ) / 190
  let s_h : ℚ := (ponto_h : ℚ) / 180
  max (6 / 10) (min 4 (min s_w s_h))

/-- Python `int()` on a float, modelled on rationals: truncation toward
zero. -/
def pyInt (q : ℚ) : Int := if 0 ≤ q then ⌊q⌋ else ⌈q⌉

/-- Caller-supplied placement data of a signing request: rectangle in
canvas units plus the reported canvas dimensions. -/
structure Placement where
  x : ℚ
  y : ℚ
  w : ℚ
  h : ℚ
  canvas_w : ℚ
  canvas_h : ℚ
deriving DecidableEq

/-- Rectangle in the target's native coordinate space. -/
structure NativeRect where
  x : Int
  y : Int
  w : Int
  h : Int
deriving DecidableEq

/-- Embeds the canvas-to-native transform of `assinar` (app.py lines
391-402): non-positive canvas dimensions are replaced by the native ones,
`escala_x = pdf_w / canvas_w`, `escala_y = pdf_h / canvas_h`,
`ponto_x = int(x*escala_x)`, `ponto_y = int(y*escala_y)`,
`ponto_w = max(1, int(w*escala_x))`, `ponto_h = max(1, int(h*escala_y))`. -/
def transformRect (pdf_w pdf_h : ℚ) (p : Placement) : NativeRect :=
  let cw := if p.canvas_w ≤ 0 then pdf_w else p.canvas_w
  let ch := if p.canvas_h ≤ 0 then pdf_h else p.canvas_h
  let escala_x := pdf_w / cw
  let escala_y := pdf_h / ch
  { x := pyInt (p.x * escala_x)
    y := pyInt (p.y * escala_y)
    w := max 1 (pyInt (p.w * escala_x))
    h := max 1 (pyInt (p.h * escala_y)) }

/-- Modelled from the claim's words, for comparison with `transformRect`:
the transformed rectangle `(x*scaleX, y*scaleY, max(1, w*scaleX),
max(1, h*scaleY))` with no integer truncation. -/
def transformRectSpec (pdf_w pdf_h : ℚ) (p : Placement) : ℚ × ℚ × ℚ × ℚ :=
  let cw := if p.canvas_w ≤ 0 then pdf_w else p.canvas_w
  let ch := if p.canvas_h ≤ 0 then pdf_h else p.canvas_h
  let escala_x := pdf_w / cw
  let escala_y := pdf_h / ch
  (p.x * escala_x, p.y * escala_y, max 1 (p.w * escala_x), max 1 (p.h * escala_y))

/-- Embeds the short-code computation of `assinar` (app.py lines 337-341):
the whole uploaded file is hashed (`f.read()` once, before any stamping)
and the hex digest is truncated to its first 10 characters. -/
def assinarCrc (H : Bytes → String) (conteudo : Bytes) : String :=
  (H conteudo).take 10

/-- Embeds `nome_final = "assinado_" + nome_base + "_" + crc + extensao`
(app.py line 343). -/
def nomeFinal (nome_base crc extensao : String) : String :=
  "assinado_" ++ nome_base ++ "_" ++ crc ++ extensao

/-- Python `str.rstrip` specialised to the slash character, as used by
`build_verification_url`. -/
def rstripSlash (s : String) : String := s.dropRightWhile (· = '/')

/-- Embeds `build_verification_url` (app.py lines 77-86): with
`PUBLIC_BASE_URL` set, the base stripped of trailing slashes followed by
the verification route with the code as query parameter; otherwise the
request host's external URL for the same route. -/
def build_verification_url (publicBase : Option String) (hostBase : String)
    (crc : String) : String :=
  match publicBase with
  | some base => rstripSlash base ++ "/verificar?crc=" ++ crc
  | none => hostBase ++ "/verificar?crc=" ++ crc

/-- Embeds the `linhas` text block of `assinar` (app.py lines 362-372). -/
def linhas (nome cpf_masked matricula orgao status processo datahora crc : String) :
    List String :=
  ["Assinado digitalmente por", nome, cpf_masked, "Matrícula: " ++ matricula,
   orgao, status, "Processo nº: " ++ processo, "em: " ++ datahora, "CRC: " ++ crc]

/-- Naming artefacts of one successful signing request. -/
structure SignNaming where
  crc : String
  nome_final : String
  qr_url : String
  texto : List String
deriving DecidableEq

/-- Embeds the naming steps of a successful `assinar` request (app.py
lines 337-372): the short code is computed once from the original upload's
content and reused for the stored filename, the QR URL and the stamp's CRC
line. -/
def assinarNaming (H : Bytes → String) (publicBase : Option String) (hostBase : String)
    (nome_base extensao : String) (conteudo : Bytes)
    (nome cpf_masked matricula orgao status processo datahora : String) : SignNaming :=
  let crc := assinarCrc H conteudo
  { crc := crc
    nome_final := nomeFinal nome_base crc extensao
    qr_url := build_verification_url publicBase hostBase crc
    texto := linhas nome cpf_masked matricula orgao status processo datahora crc }

/-- Result rendered by the verification handlers: error message, link to
the stored copy, its canonical digest, the match verdict and the upload's
digest. -/
structure VerifResult where
  erro : Option String
  caminho : Option String
  canonical_sha256 : Option String
  matched : Option Bool
  user_sha256 : Option String
deriving DecidableEq

/-- Embeds `url_for('static', filename='arquivos/assinados/' + nome)`. -/
def staticUrl (nome : String) : String := "/static/arquivos/assinados/" ++ nome

/-- Embeds the scan loop of `validar_upload` (app.py lines 700-707): the
first stored file whose streamed digest equals the upload's digest. -/
def buscaPorHash (H : Bytes → String) (user : String) :
    List StoredFile → Option StoredFile
  | [] => none
  | f :: resto =>
      if sha256_of_file H f = user then some f else buscaPorHash H user resto

/-- Embeds the POST branch of `validar_upload` (app.py lines 687-711);
`store = none` stands for a missing signed-documents directory
(`FileNotFoundError` on `os.listdir`). -/
def validar_upload (H : Bytes → String) (store : Option (List StoredFile))
    (data : Bytes) : VerifResult :=
  let user := H data
  match store with
  | none =>
      { erro := some "Nenhum documento assinado foi encontrado."
        caminho := none, canonical_sha256 := none, matched := none
        user_sha256 := some user }
  | some files =>
      match buscaPorHash H user files with
      | some f =>
          { erro := none, caminho := some (staticUrl f.path)
            canonical_sha256 := some (sha256_of_file H f), matched := some true
            user_sha256 := some user }
      | none =>
          { erro := none, caminho := none, canonical_sha256 := none
            matched := some false, user_sha256 := some user }

/-- Python `str.lower` on an ASCII character. -/
def pyLowerChar (c : Char) : Char :=
  if 'A' ≤ c ∧ c ≤ 'Z' then Char.ofNat (c.toNat + 32) else c

/-- Python `str.lower` (ASCII fragment, enough for the handled inputs). -/
def pyLower (s : String) : String := String.mk (s.toList.map pyLowerChar)

/-- Whitespace characters removed by Python `str.strip`. -/
def isSpaceChar (c : Char) : Bool := c = ' ' ∨ c = '\t' ∨ c = '\n' ∨ c = '\r'

/-- Python `str.strip` with no argument: whitespace removed from both
ends. -/
def pyStrip (s : String) : String :=
  String.mk (((s.toList.dropWhile isSpaceChar).reverse.dropWhile isSpaceChar).reverse)

/-- Embeds `crc = (request.values.get("crc") or "").strip().lower()`
(app.py line 614). -/
def normalizeCrc (raw : String) : String := pyLower (pyStrip raw)

/-- One character of the class `[0-9a-f]`. -/
def isHexLowerChar (c : Char) : Bool :=
  ('0' ≤ c && c ≤ '9') || ('a' ≤ c && c ≤ 'f')

/-- Decides `re.fullmatch(r"[0-9a-f]{8,64}", crc)` (app.py line 620). -/
def validCrcFormat (s : String) : Bool :=
  8 ≤ s.toList.length && s.toList.length ≤ 64 && s.toList.all isHexLowerChar

/-- Python `sub in s` substring test. -/
def pyInStr (sub s : String) : Bool :=
  (List.range (s.toList.length + 1)).any (fun i => sub.toList.isPrefixOf (s.toList.drop i))

/-- Embeds the scan loop of `validar_crc` (app.py lines 624-629): the
first filename containing `_<crc>` wins. -/
def buscaPorCrc (crc : String) : List StoredFile → Option StoredFile
  | [] => none
  | f :: resto =>
      if pyInStr ("_" ++ crc) f.path then some f else buscaPorCrc crc resto

/-- Result of the `validar_crc` GET handler: error message, link to the
official copy, and its canonical digest. -/
structure CrcResult where
  erro : Option String
  caminho : Option String
  canonical_sha256 : Option String
deriving DecidableEq

/-- Embeds the GET branch of `validar_crc` (app.py lines 604-634): the raw
code is stripped and lowercased; an empty code renders nothing, a
malformed one a validation error before any directory access; otherwise
the store is scanned for the first filename containing `_<crc>`, whose
full streamed SHA-256 becomes the canonical hash; no match or a missing
directory yield error messages. -/
def validar_crc (H : Bytes → String) (store : Option (List StoredFile))
    (rawCrc : String) : CrcResult :=
  let crc := normalizeCrc rawCrc
  if crc = "" then { erro := none, caminho := none, canonical_sha256 := none }
  else if ¬ validCrcFormat crc then
    { erro := some "CRC inválido. Use apenas caracteres hexadecimais."
      caminho := none, canonical_sha256 := none }
  else
    match store with
    | none =>
        { erro := some "Nenhum documento assinado foi encontrado."
          caminho := none, canonical_sha256 := none }
    | some files =>
        match buscaPorCrc crc files with
        | some f =>
            { erro := none, caminho := some (staticUrl f.path)
              canonical_sha256 := some (sha256_of_file H f) }
        | none =>
            { erro := some "Documento não encontrado para o CRC fornecido."
              caminho := none, canonical_sha256 := none }

/-- Outcome of a Python block: a value or a raised exception. -/
inductive PyResult (α : Type) where
  | ok (val : α)
  | exn
deriving DecidableEq

/-- Runs the drawing operations of the PDF branch of `assinar` (app.py
lines 434-471) from operation index `idx` with `n` operations left;
operation `j` raises exactly when `failAt = some j`. -/
def runDraw (failAt : Option Nat) : Nat → Nat → PyResult Unit
  | _, 0 => .ok ()
  | idx, n + 1 => if failAt = some idx then .exn else runDraw failAt (idx + 1) n

/-- Filesystem view relevant to one signing request: whether the signed
artifact exists at its final path and whether the temporary QR file
exists. -/
structure SignFs where
  finalExists : Bool
  qrExists : Bool
deriving DecidableEq

/-- Embeds the try/except of `assinar` (app.py lines 375-575, PDF branch):
the temporary QR file exists when the block starts; the drawing operations
run in order; only after all of them succeed is the document saved to the
final path and the QR file removed; any exception lands in the handler,
which best-effort removes the QR file (`removeOk` says whether that
removal itself succeeds) and renders the failure message. Returns the
final filesystem view and `true` exactly on the success path. -/
def assinarTryExcept (numOps : Nat) (failAt : Option Nat) (removeOk : Bool) :
    SignFs × Bool :=
  match runDraw failAt 0 numOps with
  | .ok _ => ({ finalExists := true, qrExists := false }, true)
  | .exn => ({ finalExists := false, qrExists := !removeOk }, false)

/-- Python `s.startswith(p)` on strings. -/
def pyStartswith (s p : String) : Bool := s.toList.take p.toList.length == p.toList

/-- Splits a character list on slashes, accumulating the current
component. -/
def splitSlashAux : List Char → List Char → List (List Char)
  | [], acc => [acc.reverse]
  | c :: r, acc =>
      if c = '/' then acc.reverse :: splitSlashAux r [] else splitSlashAux r (c :: acc)

/-- Python `path.split('/')`. -/
def splitSlash (s : String) : List String := (splitSlashAux s.toList []).map String.mk

/-- Python `'/'.join(comps)`. -/
def joinSlash : List String → String
  | [] => ""
  | [s] => s
  | s :: r => s ++ "/" ++ joinSlash r

/-- One step of `posixpath.normpath`'s component loop: empty and `.`
components are dropped; `..` either stays (at the head of a relative path
or after another `..`) or pops the previous component. -/
def normStep (isAbs : Bool) (acc : List String) (comp : String) : List String :=
  if comp = "" ∨ comp = "." then acc
  else if comp ≠ ".." ∨ (¬ isAbs ∧ acc = []) ∨ (acc ≠ [] ∧ acc.getLast? = some "..") then
    acc ++ [comp]
  else if acc ≠ [] then acc.dropLast else acc

/-- Embeds Python `os.path.normpath` for POSIX paths (single leading
slash). -/
def pyNormpath (p : String) : String :=
  if p = "" then "." else
  let isAbs := pyStartswith p "/"
  let comps := splitSlash p
  let joined := joinSlash (comps.foldl (normStep isAbs) [])
  let res := if isAbs then "/" ++ joined else joined
  if res = "" then "." else res

/-- Embeds Python `os.path.join(base, filename)` with one extra
component. -/
def pyJoin (base filename : String) : String :=
  if pyStartswith filename "/" then filename
  else if base = "" then filename
  else if pyStartswith (String.mk base.toList.reverse) "/" then base ++ filename
  else base ++ "/" ++ filename

/-- A path lies strictly inside a directory when the directory path
followed by a slash begins it. -/
def insideDir (base p : String) : Bool := pyStartswith p (base ++ "/")

/-- Embeds the `download` endpoint (app.py lines 725-732):
`file_path = os.path.normpath(os.path.join(base_dir, filename))`, served
iff `file_path.startswith(base_dir)` and the path is an existing regular
file (`existingFiles` lists the regular files); otherwise 404 (`none`). -/
def download (base_dir : String) (existingFiles : List String)
    (filename : String) : Option String :=
  let file_path := pyNormpath (pyJoin base_dir filename)
  if pyStartswith file_path base_dir ∧ existingFiles.contains file_path then
    some file_path
  else none

/-- One entry of the in-memory `_login_attempts` dictionary (auth.py line
62): failure count and lock expiry timestamp. -/
structure AttemptEntry where
  count : Nat
  lock_until : Nat
deriving DecidableEq

/-- The `_login_attempts` dictionary, modelled as an association list. -/
abbrev AttemptStore := List (String × AttemptEntry)

def storeGet : AttemptStore → String → Option AttemptEntry
  | [], _ => none
  | (k', v) :: r, k => if k' = k then some v else storeGet r k

def storeSet : AttemptStore → String → AttemptEntry → AttemptStore
  | [], k, v => [(k, v)]
  | (k', v') :: r, k, v => if k' = k then (k, v) :: r else (k', v') :: storeSet r k v

/-- Python `dict.pop(key, None)`. -/
def storePop : AttemptStore → String → AttemptStore
  | [], _ => []
  | (k', v) :: r, k => if k' = k then storePop r k else (k', v) :: storePop r k

/-- Embeds the config defaults of `_cfg` (auth.py line 37). -/
def MAX_LOGIN_ATTEMPTS : Nat := 5

/-- Embeds the config defaults of `_cfg` (auth.py line 37). -/
def LOCKOUT_SECONDS : Nat := 150

/-- Embeds `_key_for_login` (auth.py lines 64-66): lowercased e-mail and
client IP joined by a bar. -/
def keyForLogin (email ip : String) : String := pyLower email ++ "|" ++ ip

/-- Embeds `_register_fail` (auth.py lines 76-83): the key's entry (or a
fresh zero entry) has its count incremented; on reaching the maximum the
lock expiry is set 150 seconds ahead and the count resets to zero. -/
def registerFail (st : AttemptStore) (now : Nat) (key : String) : AttemptStore :=
  let e := (storeGet st key).getD ⟨0, 0⟩
  let c := e.count + 1
  if c ≥ MAX_LOGIN_ATTEMPTS then storeSet st key ⟨0, now + LOCKOUT_SECONDS⟩
  else storeSet st key ⟨c, e.lock_until⟩

/-- Embeds `_is_locked` (auth.py lines 68-74): the remaining lock seconds
for the key, zero when absent or expired. -/
def isLocked (st : AttemptStore) (now : Nat) (key : String) : Nat :=
  match storeGet st key with
  | none => 0
  | some e => if e.lock_until > now then e.lock_until - now else 0

/-- Embeds `_clear_attempts` (auth.py lines 85-86). -/
def clearAttempts (st : AttemptStore) (key : String) : AttemptStore := storePop st key

/-- Outcome of one POST to `login` after the CSRF check. -/
inductive LoginOutcome where
  | invalidInput
  | lockedOut
  | badCredentials
  | success
deriving DecidableEq

/-- Embeds the POST branch of `login` (auth.py lines 120-167) after CSRF:
e-mail/CPF format validation, then the lockout check on the
(e-mail, client IP) key, and only past it the user lookup and credential
check (their results `userExists`, `credentialOk` come from the external
record store); a failed check registers in the attempt store, a successful
login clears the key's entry and the outcome is `success`. -/
def loginStep (st : AttemptStore) (now : Nat) (email ip : String)
    (emailValid cpfValid userExists credentialOk : Bool) :
    AttemptStore × LoginOutcome :=
  if !emailValid || !cpfValid then (st, .invalidInput)
  else
    let key := keyForLogin email ip
    if isLocked st now key > 0 then (st, .lockedOut)
    else if !userExists || !credentialOk then (registerFail st now key, .badCredentials)
    else (clearAttempts st key, .success)

theorem readChunks_join (l : Bytes) : (readChunks l).flatten = l := by
  induction l using readChunks.induct with
  | case1 => simp [readChunks]
  | case2 b rest ih =>
      rw [readChunks]
      simp only [List.flatten_cons]
      rw [ih]
      exact List.take_append_drop _ _

theorem sha256_of_file_eq_whole (H : Bytes → String) (f : StoredFile) :
    sha256_of_file H f = H f.content := by
  rw [sha256_of_file, readChunks_join]

/-- C8: the streamed 8 KiB-chunked digest of `sha256_of_file` equals the
one-shot digest of the whole content, hashing is a deterministic function
of content alone, and byte-identical files under different names hash
identically. -/
theorem claim_C8 (H : Bytes → String) (f₁ f₂ : StoredFile) :
    sha256_of_file H f₁ = H f₁.content ∧
    (f₁.content = f₂.content → sha256_of_file H f₁ = sha256_of_file H f₂) := by
  refine ⟨sha256_of_file_eq_whole H f₁, fun hc => ?_⟩
  rw [sha256_of_file_eq_whole, sha256_of_file_eq_whole, hc]

theorem claim_C8_witness :
    sha256_of_file (fun b => if b = [1, 2] then "d1" else "d2") ⟨"x.pdf", [1, 2]⟩ =
      (fun b : Bytes => if b = [1, 2] then "d1" else "d2") [1, 2] ∧
    sha256_of_file (fun b => if b = [1, 2] then "d1" else "d2") ⟨"x.pdf", [1, 2]⟩ =
      sha256_of_file (fun b => if b = [1, 2] then "d1" else "d2") ⟨"y.pdf", [1, 2]⟩ := by
  refine ⟨(claim_C8 _ ⟨"x.pdf", [1, 2]⟩ ⟨"y.pdf", [1, 2]⟩).1, ?_⟩
  exact (claim_C8 (fun b => if b = [1, 2] then "d1" else "d2")
    ⟨"x.pdf", [1, 2]⟩ ⟨"y.pdf", [1, 2]⟩).2 rfl

/-- C5: for a PDF with at least one page, the stamped page is the request
page clamped into `[1, pageCount]`: below-range indices map to 1,
above-range indices map to `pageCount`, in-range indices are unchanged. -/
theorem claim_C5 (p total : Int) (h : 1 ≤ total) :
    clampPage p total = max 1 (min p total) ∧
    1 ≤ clampPage p total ∧ clampPage p total ≤ total ∧
    (p < 1 → clampPage p total = 1) ∧
    (p > total → clampPage p total = total) ∧
    (1 ≤ p → p ≤ total → clampPage p total = p) := by
  simp only [clampPage]
  split_ifs <;> omega

theorem claim_C5_witness :
    clampPage 0 3 = 1 ∧ clampPage 5 3 = 3 ∧ clampPage 2 3 = 2 := by
  refine ⟨((claim_C5 0 3 (by norm_num)).2.2.2.1 (by norm_num)),
    ((claim_C5 5 3 (by norm_num)).2.2.2.2.1 (by norm_num)),
    ((claim_C5 2 3 (by norm_num)).2.2.2.2.2 (by norm_num) (by norm_num))⟩

/-- C6: the scale factor is the smaller of the two ratios of the
transformed rectangle's dimensions to the 190×180 reference, clamped to
`[0.6, 4.0]`, and in particular always lies in `[0.6, 4.0]`. -/
theorem claim_C6 (w h : Int) :
    scaleS w h = max (6 / 10) (min 4 (min ((w : ℚ) / 190) ((h : ℚ) / 180))) ∧
    (6 / 10 : ℚ) ≤ scaleS w h ∧ scaleS w h ≤ 4 := by
  refine ⟨rfl, le_max_left _ _, ?_⟩
  apply max_le (by norm_num)
  exact min_le_left _ _

/-- C4 counterexample: the code truncates each coordinate with `int()`, so
the produced rectangle differs from the claimed untruncated formula: with
native size 1×1, canvas 2×2 and x = 1, the code yields x-coordinate 0
while the claimed formula yields 1/2. -/
theorem claim_C4_counterexample :
    ¬ (((transformRect 1 1 ⟨1, 1, 1, 1, 2, 2⟩).x : ℚ) =
       (transformRectSpec 1 1 ⟨1, 1, 1, 1, 2, 2⟩).1) := by
  have h1 : (transformRectSpec 1 1 ⟨1, 1, 1, 1, 2, 2⟩).1 = 1 / 2 := by
    norm_num [transformRectSpec]
  have h2 : (transformRect 1 1 ⟨1, 1, 1, 1, 2, 2⟩).x = 0 := by
    show pyInt (1 * ((1 : ℚ) / if (2 : ℚ) ≤ 0 then 1 else 2)) = 0
    norm_num [pyInt]
  rw [h1, h2]
  norm_num

/-- C4 (amended): with positive native dimensions, non-positive canvas
dimensions are replaced by the native ones so both scale divisors are
positive, the rectangle equals the claimed formula with each coordinate
truncated toward zero by `int()` (the `max 1` floor applied after
truncation), and the transformed width and height are always ≥ 1. -/
theorem claim_C4 (pdf_w pdf_h : ℚ) (p : Placement)
    (hw : 0 < pdf_w) (hh : 0 < pdf_h) :
    0 < (if p.canvas_w ≤ 0 then pdf_w else p.canvas_w) ∧
    0 < (if p.canvas_h ≤ 0 then pdf_h else p.canvas_h) ∧
    transformRect pdf_w pdf_h p =
      { x := pyInt (p.x * (pdf_w / (if p.canvas_w ≤ 0 then pdf_w else p.canvas_w)))
        y := pyInt (p.y * (pdf_h / (if p.canvas_h ≤ 0 then pdf_h else p.canvas_h)))
        w := max 1 (pyInt (p.w * (pdf_w / (if p.canvas_w ≤ 0 then pdf_w else p.canvas_w))))
        h := max 1 (pyInt (p.h * (pdf_h / (if p.canvas_h ≤ 0 then pdf_h else p.canvas_h)))) } ∧
    1 ≤ (transformRect pdf_w pdf_h p).w ∧ 1 ≤ (transformRect pdf_w pdf_h p).h := by
  refine ⟨?_, ?_, rfl, le_max_left _ _, le_max_left _ _⟩
  · split_ifs with hc
    · exact hw
    · exact lt_of_not_le hc
  · split_ifs with hc
    · exact hh
    · exact lt_of_not_le hc

theorem claim_C4_witness :
    (0 : ℚ) < 100 ∧
    1 ≤ (transformRect 100 100 ⟨10, 10, 190, 180, 0, -1⟩).w ∧
    1 ≤ (transformRect 100 100 ⟨10, 10, 190, 180, 0, -1⟩).h := by
  refine ⟨by norm_num, ?_, ?_⟩
  · exact (claim_C4 100 100 ⟨10, 10, 190, 180, 0, -1⟩ (by norm_num) (by norm_num)).2.2.2.1
  · exact (claim_C4 100 100 ⟨10, 10, 190, 180, 0, -1⟩ (by norm_num) (by norm_num)).2.2.2.2

/-- C1: the stamped artifact's filename is `assinado_<base>_<c><ext>`
where `c` is exactly the first 10 hex characters of the SHA-256 hex digest
of the original upload's content, and this same `c` is the code embedded
in the QR verification URL and in the stamp's CRC line. -/
theorem claim_C1 (H : Bytes → String) (publicBase : Option String)
    (hostBase nome_base extensao : String) (conteudo : Bytes)
    (nome cpf_masked matricula orgao status processo datahora : String) :
    (assinarNaming H publicBase hostBase nome_base extensao conteudo
        nome cpf_masked matricula orgao status processo datahora).crc
      = (H conteudo).take 10 ∧
    (assinarNaming H publicBase hostBase nome_base extensao conteudo
        nome cpf_masked matricula orgao status processo datahora).nome_final
      = "assinado_" ++ nome_base ++ "_" ++ (H conteudo).take 10 ++ extensao ∧
    (∃ pre, (assinarNaming H publicBase hostBase nome_base extensao conteudo
        nome cpf_masked matricula orgao status processo datahora).qr_url
      = pre ++ (H conteudo).take 10) ∧
    ("CRC: " ++ (H conteudo).take 10) ∈
      (assinarNaming H publicBase hostBase nome_base extensao conteudo
        nome cpf_masked matricula orgao status processo datahora).texto := by
  refine ⟨?_, ?_, ?_, ?_⟩
  · simp only [assinarNaming, assinarCrc]
  · simp only [assinarNaming, nomeFinal, assinarCrc]
  · cases publicBase with
    | none => exact ⟨hostBase ++ "/verificar?crc=", rfl⟩
    | some base => exact ⟨rstripSlash base ++ "/verificar?crc=", rfl⟩
  · simp [assinarNaming, linhas, assinarCrc]

theorem buscaPorHash_mem (H : Bytes → String) (user : String)
    (files : List StoredFile) :
    ∀ g, buscaPorHash H user files = some g → g ∈ files ∧ H g.content = user := by
  induction files with
  | nil => intro g hg; simp [buscaPorHash] at hg
  | cons f resto ih =>
      intro g hg
      rw [buscaPorHash] at hg
      by_cases hf : sha256_of_file H f = user
      · simp only [hf, if_pos, Option.some.injEq] at hg
        subst hg
        exact ⟨List.mem_cons_self _ _, by rw [← sha256_of_file_eq_whole H f]; exact hf⟩
      · simp only [hf, if_neg, if_false] at hg
        obtain ⟨hmem, hh⟩ := ih g hg
        exact ⟨List.mem_cons_of_mem _ hmem, hh⟩

theorem buscaPorHash_isSome (H : Bytes → String) (user : String)
    (files : List StoredFile) (hex : ∃ f ∈ files, H f.content = user) :
    ∃ g, buscaPorHash H user files = some g := by
  induction files with
  | nil => simp at hex
  | cons f resto ih =>
      rw [buscaPorHash]
      by_cases hf : sha256_of_file H f = user
      · exact ⟨f, by simp [hf]⟩
      · have hresto : ∃ g ∈ resto, H g.content = user := by
          obtain ⟨g, hg, he⟩ := hex
          rcases List.mem_cons.mp hg with rfl | hmem
          · exact absurd (by rw [sha256_of_file_eq_whole]; exact he) hf
          · exact ⟨g, hmem, he⟩
        obtain ⟨g, hgsome⟩ := ih hresto
        exact ⟨g, by simp [hf, hgsome]⟩

theorem buscaPorHash_eq_none (H : Bytes → String) (user : String)
    (files : List StoredFile) (hall : ∀ f ∈ files, H f.content ≠ user) :
    buscaPorHash H user files = none := by
  induction files with
  | nil => rfl
  | cons f resto ih =>
      rw [buscaPorHash]
      have hf : ¬ (sha256_of_file H f = user) := by
        rw [sha256_of_file_eq_whole]
        exact hall f (List.mem_cons_self _ _)
      rw [if_neg hf]
      exact ih (fun g hg => hall g (List.mem_cons_of_mem _ hg))

/-- C2: verification by upload reports a match exactly when some stored
file's digest equals the upload's digest; on a match the canonical hash is
the matching stored file's digest, on no match the verdict is false and no
canonical hash is reported. -/
theorem claim_C2 (H : Bytes → String) (files : List StoredFile) (data : Bytes) :
    ((∃ f ∈ files, H f.content = H data) →
      (validar_upload H (some files) data).matched = some true ∧
      ∃ f ∈ files, H f.content = H data ∧
        (validar_upload H (some files) data).canonical_sha256 = some (H f.content) ∧
        (validar_upload H (some files) data).caminho = some (staticUrl f.path)) ∧
    ((∀ f ∈ files, H f.content ≠ H data) →
      (validar_upload H (some files) data).matched = some false ∧
      (validar_upload H (some files) data).canonical_sha256 = none) := by
  constructor
  · intro hex
    obtain ⟨g, hg⟩ := buscaPorHash_isSome H (H data) files hex
    obtain ⟨hmem, hh⟩ := buscaPorHash_mem H (H data) files g hg
    refine ⟨?_, g, hmem, hh, ?_, ?_⟩
    · simp [validar_upload, hg]
    · simp [validar_upload, hg, sha256_of_file_eq_whole]
    · simp [validar_upload, hg]
  · intro hall
    have hnone := buscaPorHash_eq_none H (H data) files hall
    exact ⟨by simp [validar_upload, hnone], by simp [validar_upload, hnone]⟩

theorem claim_C2_witness :
    (validar_upload (fun _ => "d") (some [⟨"assinado_doc_ab.pdf", [7]⟩]) [7]).matched
      = some true ∧
    (validar_upload (fun _ => "d") (some []) [7]).matched = some false ∧
    (validar_upload (fun _ => "d") (some []) [7]).canonical_sha256 = none := by
  refine ⟨?_, ?_, ?_⟩
  · exact ((claim_C2 (fun _ => "d") [⟨"assinado_doc_ab.pdf", [7]⟩] [7]).1
      ⟨⟨"assinado_doc_ab.pdf", [7]⟩, by simp, rfl⟩).1
  · exact ((claim_C2 (fun _ => "d") [] [7]).2 (by simp)).1
  · exact ((claim_C2 (fun _ => "d") [] [7]).2 (by simp)).2

theorem buscaPorCrc_first (crc : String) (pre : List StoredFile)
    (f : StoredFile) (resto : List StoredFile)
    (hpre : ∀ g ∈ pre, pyInStr ("_" ++ crc) g.path = false)
    (hf : pyInStr ("_" ++ crc) f.path = true) :
    buscaPorCrc crc (pre ++ f :: resto) = some f := by
  induction pre with
  | nil => simp [buscaPorCrc, hf]
  | cons g resto' ih =>
      rw [List.cons_append, buscaPorCrc]
      rw [hpre g (List.mem_cons_self _ _)]
      simp only [Bool.false_eq_true, if_false]
      exact ih (fun g' hg' => hpre g' (List.mem_cons_of_mem _ hg'))

theorem buscaPorCrc_none (crc : String) (files : List StoredFile)
    (hall : ∀ g ∈ files, pyInStr ("_" ++ crc) g.path = false) :
    buscaPorCrc crc files = none := by
  induction files with
  | nil => rfl
  | cons g resto ih =>
      rw [buscaPorCrc, hall g (List.mem_cons_self _ _)]
      simp only [Bool.false_eq_true, if_false]
      exact ih (fun g' hg' => hall g' (List.mem_cons_of_mem _ hg'))

theorem validCrcFormat_ne_empty (s : String) (h : validCrcFormat s = true) :
    s ≠ "" := by
  intro he
  subst he
  simp [validCrcFormat] at h

/-- C3 counterexample: the code parameter `"AB12CD34"` is not 8-64
lowercase hex, yet the handler reports no validation error and does scan
the store (the outcome depends on the store's contents), because the raw
value is lowercased before validation. -/
theorem claim_C3_counterexample :
    (validar_crc (fun _ => "h")
        (some [⟨"assinado_doc_ab12cd34.pdf", []⟩]) "AB12CD34").erro = none ∧
    (validar_crc (fun _ => "h")
        (some [⟨"assinado_doc_ab12cd34.pdf", []⟩]) "AB12CD34").canonical_sha256
      = some "h" ∧
    validar_crc (fun _ => "h") (some []) "AB12CD34"
      ≠ validar_crc (fun _ => "h") (some [⟨"assinado_doc_ab12cd34.pdf", []⟩]) "AB12CD34" := by
  decide

/-- C3 (amended): the raw code is first stripped and lowercased; when the
normalized code is empty nothing is reported and the store is not
consulted; when it is nonempty and not 8-64 hex characters a validation
error is reported and the result is the same whatever the store holds (no
scan); for a well-formed normalized code the store is scanned linearly,
the first filename containing `_<code>` wins and its full SHA-256 is the
canonical hash, and with no matching filename a not-found error is
reported. -/
theorem claim_C3 (H : Bytes → String) (rawCrc : String) :
    (normalizeCrc rawCrc = "" →
      ∀ store, validar_crc H store rawCrc = ⟨none, none, none⟩) ∧
    (normalizeCrc rawCrc ≠ "" → validCrcFormat (normalizeCrc rawCrc) = false →
      ∀ store, validar_crc H store rawCrc =
        ⟨some "CRC inválido. Use apenas caracteres hexadecimais.", none, none⟩) ∧
    (validCrcFormat (normalizeCrc rawCrc) = true →
      ∀ pre f resto,
        (∀ g ∈ pre, pyInStr ("_" ++ normalizeCrc rawCrc) g.path = false) →
        pyInStr ("_" ++ normalizeCrc rawCrc) f.path = true →
        validar_crc H (some (pre ++ f :: resto)) rawCrc =
          ⟨none, some (staticUrl f.path), some (H f.content)⟩) ∧
    (validCrcFormat (normalizeCrc rawCrc) = true →
      ∀ files, (∀ g ∈ files, pyInStr ("_" ++ normalizeCrc rawCrc) g.path = false) →
        validar_crc H (some files) rawCrc =
          ⟨some "Documento não encontrado para o CRC fornecido.", none, none⟩) := by
  refine ⟨?_, ?_, ?_, ?_⟩
  · intro he store
    simp [validar_crc, he]
  · intro hne hbad store
    simp [validar_crc, hne, hbad]
  · intro hok pre f resto hpre hf
    have hne := validCrcFormat_ne_empty _ hok
    have hscan := buscaPorCrc_first (normalizeCrc rawCrc) pre f resto hpre hf
    simp [validar_crc, hne, hok, hscan, sha256_of_file_eq_whole]
  · intro hok files hall
    have hne := validCrcFormat_ne_empty _ hok
    have hscan := buscaPorCrc_none (normalizeCrc rawCrc) files hall
    simp [validar_crc, hne, hok, hscan]

theorem claim_C3_witness :
    validar_crc (fun _ => "h") (some [⟨"assinado_b_ab12cd34.pdf", [2]⟩]) "zz1234"
      = ⟨some "CRC inválido. Use apenas caracteres hexadecimais.", none, none⟩ ∧
    validar_crc (fun _ => "h") (some [⟨"assinado_b_ab12cd34.pdf", [2]⟩]) "ab12cd34"
      = ⟨none, some (staticUrl "assinado_b_ab12cd34.pdf"), some "h"⟩ ∧
    validar_crc (fun _ => "h") (some []) "ab12cd34"
      = ⟨some "Documento não encontrado para o CRC fornecido.", none, none⟩ := by
  refine ⟨?_, ?_, ?_⟩
  · exact (claim_C3 (fun _ => "h") "zz1234").2.1 (by decide) (by decide) _
  · exact (claim_C3 (fun _ => "h") "ab12cd34").2.2.1 (by decide)
      [] ⟨"assinado_b_ab12cd34.pdf", [2]⟩ [] (by simp) (by decide)
  · exact (claim_C3 (fun _ => "h") "ab12cd34").2.2.2 (by decide) [] (by simp)

theorem runDraw_fail (i : Nat) :
    ∀ n start, start ≤ i → i < start + n → runDraw (some i) start n = .exn := by
  intro n
  induction n with
  | zero => intro start h1 h2; omega
  | succ m ih =>
      intro start h1 h2
      rw [runDraw]
      by_cases he : i = start
      · rw [if_pos (by rw [he])]
      · rw [if_neg (by simpa using he)]
        exact ih (start + 1) (by omega) (by omega)

/-- C7: if any drawing operation raises while compositing the stamp, the
exception is caught, the caller gets the failure rendering, the temporary
QR file is removed whenever its removal succeeds, no artifact exists at
the final storage path, and conversely the final artifact exists only when
every drawing operation succeeded. -/
theorem claim_C7 (numOps i : Nat) (removeOk : Bool) (hi : i < numOps) :
    (assinarTryExcept numOps (some i) removeOk).2 = false ∧
    (assinarTryExcept numOps (some i) removeOk).1.finalExists = false ∧
    (removeOk = true → (assinarTryExcept numOps (some i) removeOk).1.qrExists = false) ∧
    (∀ failAt, (assinarTryExcept numOps failAt removeOk).1.finalExists = true →
      runDraw failAt 0 numOps = .ok ()) := by
  have hexn := runDraw_fail i numOps 0 (Nat.zero_le _) (by omega)
  refine ⟨?_, ?_, ?_, ?_⟩
  · simp [assinarTryExcept, hexn]
  · simp [assinarTryExcept, hexn]
  · intro hrm; simp [assinarTryExcept, hexn, hrm]
  · intro failAt hfinal
    cases h : runDraw failAt 0 numOps with
    | ok v => cases v; rfl
    | exn => simp [assinarTryExcept, h] at hfinal

theorem claim_C7_witness :
    (assinarTryExcept 3 (some 1) true).2 = false ∧
    (assinarTryExcept 3 (some 1) true).1.finalExists = false ∧
    (assinarTryExcept 3 (some 1) true).1.qrExists = false := by
  refine ⟨(claim_C7 3 1 true (by norm_num)).1,
    (claim_C7 3 1 true (by norm_num)).2.1,
    (claim_C7 3 1 true (by norm_num)).2.2.1 rfl⟩

/-- C9: evaluation at the failing input. The filename
`../assinados_x/f.pdf` resolves to a sibling directory outside the
signed-documents store, yet the `startswith` guard accepts it because the
resolved path extends the store's path as a plain string, so the file is
served; a deeper escape (`../../x/f.pdf`) and a missing file are rejected
as the claim says. -/
theorem claim_C9_bug :
    download "/app/static/arquivos/assinados"
        ["/app/static/arquivos/assinados_x/f.pdf"] "../assinados_x/f.pdf"
      = some "/app/static/arquivos/assinados_x/f.pdf" ∧
    insideDir "/app/static/arquivos/assinados"
        "/app/static/arquivos/assinados_x/f.pdf" = false ∧
    download "/app/static/arquivos/assinados"
        ["/app/static/x/f.pdf"] "../../x/f.pdf" = none ∧
    download "/app/static/arquivos/assinados" [] "doc.pdf" = none := by
  decide

theorem storeGet_storeSet (st : AttemptStore) (k : String) (v : AttemptEntry) :
    storeGet (storeSet st k v) k = some v := by
  induction st with
  | nil => simp [storeSet, storeGet]
  | cons e r ih =>
      rw [storeSet]
      by_cases he : e.1 = k
      · rw [if_pos he, storeGet, if_pos rfl]
      · rw [if_neg he, storeGet, if_neg he]
        exact ih

theorem storeGet_storePop (st : AttemptStore) (k : String) :
    storeGet (storePop st k) k = none := by
  induction st with
  | nil => rfl
  | cons e r ih =>
      rw [storePop]
      by_cases he : e.1 = k
      · rw [if_pos he]; exact ih
      · rw [if_neg he, storeGet, if_neg he]; exact ih

/-- C10: the rate-limit state machine on the per-(e-mail, IP) store: while
the key's lock is unexpired the attempt is rejected with the store
untouched, whatever the user lookup or credential check would say; an
unlocked failed credential check registers a failure, incrementing the
key's count when below the threshold; on the count reaching 5 the entry
resets to count 0 with a lock expiring 150 seconds from now (the remaining
lock time at any instant `t` being `now + 150 - t`); a successful login
removes the key's entry entirely. -/
theorem claim_C10 (st : AttemptStore) (now : Nat) (email ip : String)
    (c lu : Nat)
    (hc : (storeGet st (keyForLogin email ip)).getD ⟨0, 0⟩ = ⟨c, lu⟩) :
    (∀ ue co : Bool, 0 < isLocked st now (keyForLogin email ip) →
      loginStep st now email ip true true ue co = (st, LoginOutcome.lockedOut)) ∧
    (∀ ue co : Bool, (ue && co) = false →
      isLocked st now (keyForLogin email ip) = 0 →
      loginStep st now email ip true true ue co =
        (registerFail st now (keyForLogin email ip), LoginOutcome.badCredentials)) ∧
    (c + 1 < MAX_LOGIN_ATTEMPTS →
      storeGet (registerFail st now (keyForLogin email ip)) (keyForLogin email ip)
        = some ⟨c + 1, lu⟩) ∧
    (c + 1 ≥ MAX_LOGIN_ATTEMPTS →
      storeGet (registerFail st now (keyForLogin email ip)) (keyForLogin email ip)
        = some ⟨0, now + LOCKOUT_SECONDS⟩ ∧
      ∀ t, isLocked (registerFail st now (keyForLogin email ip)) t (keyForLogin email ip)
        = now + LOCKOUT_SECONDS - t) ∧
    (isLocked st now (keyForLogin email ip) = 0 →
      loginStep st now email ip true true true true =
        (clearAttempts st (keyForLogin email ip), LoginOutcome.success) ∧
      storeGet (clearAttempts st (keyForLogin email ip)) (keyForLogin email ip)
        = none) := by
  refine ⟨?_, ?_, ?_, ?_, ?_⟩
  · intro ue co hlock
    simp [loginStep, Nat.pos_iff_ne_zero.mp hlock, hlock]
  · intro ue co hfail hlock
    cases ue <;> cases co <;> simp_all [loginStep]
  · intro hlt
    rw [registerFail]
    simp only [hc]
    rw [if_neg (by omega)]
    exact storeGet_storeSet _ _ _
  · intro hge
    rw [registerFail]
    simp only [hc]
    rw [if_pos (by omega)]
    refine ⟨storeGet_storeSet _ _ _, fun t => ?_⟩
    rw [isLocked, storeGet_storeSet]
    show (if now + LOCKOUT_SECONDS > t then now + LOCKOUT_SECONDS - t else 0)
      = now + LOCKOUT_SECONDS - t
    split_ifs <;> omega
  · intro hlock
    refine ⟨?_, storeGet_storePop _ _⟩
    simp [loginStep, hlock, clearAttempts]

theorem claim_C10_witness :
    loginStep [] 1000 "A@x.com" "1.2.3.4" true true false true =
      (registerFail [] 1000 (keyForLogin "A@x.com" "1.2.3.4"),
        LoginOutcome.badCredentials) ∧
    storeGet (registerFail [] 1000 (keyForLogin "A@x.com" "1.2.3.4"))
        (keyForLogin "A@x.com" "1.2.3.4") = some ⟨1, 0⟩ ∧
    loginStep [] 1000 "A@x.com" "1.2.3.4" true true true true =
      (clearAttempts [] (keyForLogin "A@x.com" "1.2.3.4"), LoginOutcome.success) := by
  refine ⟨?_, ?_, ?_⟩
  · exact (claim_C10 [] 1000 "A@x.com" "1.2.3.4" 0 0 rfl).2.1 false true rfl rfl
  · exact (claim_C10 [] 1000 "A@x.com" "1.2.3.4" 0 0 rfl).2.2.1 (by norm_num [MAX_LOGIN_ATTEMPTS])
  · exact ((claim_C10 [] 1000 "A@x.com" "1.2.3.4" 0 0 rfl).2.2.2.2 rfl).1

end Assinador
